import Mathlib

/-!
Verification of the swear-jar authentication subsystem (`server/auth.js` and the
`POST /api/auth/validate` handler of `server/server.js`).

Times are modelled as natural-number millisecond timestamps (`Date.now()`), and
character codes as natural numbers (`charCodeAt`).  The JavaScript `Map` from
client identifier to rate-limit record, and the token store, are modelled as
functions `String → Option _`.  `checkRateLimit` is modelled as a state
transformer because in the source the record object obtained from the map is
mutated in place (`record.attempts = 0`), which is visible in the stored map.
-/

namespace SwearJar

/-- A rate-limit record: `{ attempts, lastAttempt, lockUntil }` from the
`rateLimitMap` of `AuthManager` (auth.js line 234). -/
structure RateLimitRecord where
  attempts : Nat
  lastAttempt : Nat
  lockUntil : Nat
deriving DecidableEq

/-- The `rateLimitMap`: client identifier (IP string) to record. -/
abbrev RateLimitMap := String → Option RateLimitRecord

/-- A stored token record `{ expiresAt, createdAt }` (auth.js lines 330-333). -/
structure TokenRecord where
  expiresAt : Nat
  createdAt : Nat
deriving DecidableEq

/-- The token store of the file backend: token string to record. -/
abbrev TokenStore := String → Option TokenRecord

/-- Point update of a rate-limit map (the effect of `Map.set`, or of mutating
the record object held by the map). -/
def setRecord (m : RateLimitMap) (ip : String) (r : RateLimitRecord) : RateLimitMap :=
  fun j => if j = ip then some r else m j

/-- Point deletion from a rate-limit map (`Map.delete`). -/
def deleteRecord (m : RateLimitMap) (ip : String) : RateLimitMap :=
  fun j => if j = ip then none else m j

/-- Point update of the token store. -/
def setToken (s : TokenStore) (t : String) (r : TokenRecord) : TokenStore :=
  fun j => if j = t then some r else s j

/-- Point deletion from the token store (`delete authData.tokens[token]`). -/
def deleteToken (s : TokenStore) (t : String) : TokenStore :=
  fun j => if j = t then none else s j

/-- The empty rate-limit map (a fresh `AuthManager`). -/
def emptyRateLimitMap : RateLimitMap := fun _ => none

/-- The empty token store. -/
def emptyTokens : TokenStore := fun _ => none

/-- Result shape of `checkRateLimit`: `{ allowed, remainingSeconds? }`. -/
structure RateCheck where
  allowed : Bool
  remainingSeconds : Option Nat
deriving DecidableEq

/-- `AuthManager.checkRateLimit(ip)` (auth.js lines 255-271).  Looks up the
record (default `{attempts: 0, lastAttempt: 0, lockUntil: 0}`).  If
`now < lockUntil` it denies with `Math.ceil((lockUntil - now)/1000)` seconds
remaining.  Otherwise, if `now - lastAttempt > 15 minutes`, the source assigns
`record.attempts = 0`; when the record object came out of the map this mutates
the stored record, so the returned map reflects that write-back.  Allowed iff
`attempts < 30` (after the possible reset). -/
def checkRateLimit (m : RateLimitMap) (ip : String) (now : Nat) : RateCheck × RateLimitMap :=
  let record := (m ip).getD { attempts := 0, lastAttempt := 0, lockUntil := 0 }
  if now < record.lockUntil then
    ({ allowed := false, remainingSeconds := some ((record.lockUntil - now + 999) / 1000) }, m)
  else
    let windowExpired := now - record.lastAttempt > 15 * 60 * 1000
    let record1 := if windowExpired then { record with attempts := 0 } else record
    let m1 := if (m ip).isSome ∧ windowExpired then setRecord m ip record1 else m
    ({ allowed := decide (record1.attempts < 30), remainingSeconds := none }, m1)

/-- One failed attempt applied to a single record: increment `attempts`, set
`lastAttempt = now`, and if `attempts >= 30` set
`lockUntil = now + 15 minutes` (auth.js lines 278-284). -/
def failRecord (record : RateLimitRecord) (now : Nat) : RateLimitRecord :=
  if record.attempts + 1 ≥ 30 then
    { attempts := record.attempts + 1, lastAttempt := now, lockUntil := now + 15 * 60 * 1000 }
  else
    { record with attempts := record.attempts + 1, lastAttempt := now }

/-- `AuthManager.recordFailedAttempt(ip)` (auth.js lines 274-289). -/
def recordFailedAttempt (m : RateLimitMap) (ip : String) (now : Nat) : RateLimitMap :=
  setRecord m ip (failRecord ((m ip).getD { attempts := 0, lastAttempt := 0, lockUntil := 0 }) now)

/-- `AuthManager.resetRateLimit(ip)` (auth.js lines 292-295): deletes the
record entirely. -/
def resetRateLimit (m : RateLimitMap) (ip : String) : RateLimitMap :=
  deleteRecord m ip

/-- `AuthManager.secureCompare(a, b)` (auth.js lines 245-252) on sequences of
character codes: false if the lengths differ; otherwise XOR every
corresponding pair, OR-accumulate, and return whether the accumulator is
zero. -/
def secureCompare (a b : List Nat) : Bool :=
  if a.length ≠ b.length then false
  else decide ((List.zipWith (fun x y => x ^^^ y) a b).foldl (fun r x => r ||| x) 0 = 0)

/-- The sequence of character codes of a string (`charCodeAt` at each index;
characters are modelled as code points). -/
def charCodes (s : String) : List Nat :=
  s.data.map Char.toNat

/-- `secureCompare` applied to two strings. -/
def secureCompareStr (a b : String) : Bool :=
  secureCompare (charCodes a) (charCodes b)

/-- Errors thrown by `AuthManager.validatePin`: the rate-limited error
(carrying the remaining seconds when known) and the invalid-PIN error. -/
inductive AuthError where
  | rateLimited (remainingSeconds : Option Nat)
  | invalidPin
deriving DecidableEq

/-- The mutable state of `AuthManager`: the rate-limit map and the token
store. -/
structure AuthState where
  rateLimitMap : RateLimitMap
  tokens : TokenStore

/-- `AuthManager.storeToken(token, expiresAt)`, file branch (auth.js lines
340-344): records `{ expiresAt, createdAt: Date.now() }` under the token. -/
def storeToken (tokens : TokenStore) (token : String) (expiresAt now : Nat) : TokenStore :=
  setToken tokens token { expiresAt := expiresAt, createdAt := now }

/-- `AuthManager.storeToken`, KV (Redis) branch (auth.js lines 335-338): the
key and the native TTL passed to `setEx`, namely `auth:` ++ token and
`Math.floor((expiresAt - Date.now()) / 1000)` (floor division, no clamping). -/
def storeTokenKV (token : String) (expiresAt now : Int) : String × Int :=
  ("auth:" ++ token, (expiresAt - now).fdiv 1000)

/-- The TTL formula as the spec words it: `max(0, round((expiresAt - now)/1000))`.
`Math.round(x)` is `floor(x + 1/2)`, so on millisecond integers it is
`fdiv (d + 500) 1000`.  This definition follows the spec text, for comparison
with `storeTokenKV`. -/
def ttlSpecRounded (expiresAt now : Int) : Int :=
  max 0 ((expiresAt - now + 500).fdiv 1000)

/-- `AuthManager.validatePin(pin, ip)` (auth.js lines 298-326).  First consults
`checkRateLimit` (threading the map it may have written back); if not allowed,
throws the rate-limited error.  Then compares the pin to the configured PIN
with `secureCompare`; on mismatch records a failed attempt and throws the
invalid-PIN error.  On match, stores a fresh token expiring at
`now + tokenExpiry`, resets the rate limit for `ip`, and returns the token and
expiry.  The generated random token is passed in as `newToken`. -/
def validatePin (pin PIN ip : String) (now : Nat) (newToken : String) (tokenExpiry : Nat)
    (st : AuthState) : Except AuthError (String × Nat) × AuthState :=
  let rc := checkRateLimit st.rateLimitMap ip now
  if rc.1.allowed = false then
    (Except.error (AuthError.rateLimited rc.1.remainingSeconds), { st with rateLimitMap := rc.2 })
  else if secureCompareStr pin PIN = false then
    (Except.error AuthError.invalidPin, { st with rateLimitMap := recordFailedAttempt rc.2 ip now })
  else
    (Except.ok (newToken, now + tokenExpiry),
      { rateLimitMap := resetRateLimit rc.2 ip,
        tokens := storeToken st.tokens newToken (now + tokenExpiry) now })

/-- `AuthManager.validateToken(token)`, file branch (auth.js lines 348-377):
false for an absent (`null`) or empty token; false for an absent record; if
`Date.now() > expiresAt`, removes the token and returns false; otherwise
true.  Returns the resulting token store alongside. -/
def validateToken (token : Option String) (tokens : TokenStore) (now : Nat) :
    Bool × TokenStore :=
  match token with
  | none => (false, tokens)
  | some t =>
    if t = "" then (false, tokens)
    else
      match tokens t with
      | none => (false, tokens)
      | some r => if now > r.expiresAt then (false, deleteToken tokens t) else (true, tokens)

/-- `AuthManager.validateToken`, KV branch, with the backend read modelled as
fallible (`redis.get` may throw; the surrounding try/catch collapses any
exception to `false`).  `Except.error` is a storage-read failure,
`Except.ok none` an absent record. -/
def validateTokenKV (token : Option String) (readResult : Except String (Option TokenRecord))
    (now : Nat) : Bool :=
  match token with
  | none => false
  | some t =>
    if t = "" then false
    else
      match readResult with
      | Except.error _ => false
      | Except.ok none => false
      | Except.ok (some r) => !decide (now > r.expiresAt)

/-- The PIN configured at construction (auth.js line 232):
`process.env.AUTH_PIN || '09540'`, so the unset and empty cases fall back to
the built-in default. -/
def pinConfig (envPin : Option String) : String :=
  match envPin with
  | none => "09540"
  | some s => if s = "" then "09540" else s

/-- A JavaScript value as it can appear in the request body `pin` field. -/
inductive JsValue where
  | vstr (s : String)
  | vnum (n : Int)
  | vbool (b : Bool)
  | vnull
  | vundefined
deriving DecidableEq

/-- JavaScript truthiness of a `JsValue` (`NaN` is not modelled). -/
def truthy : JsValue → Bool
  | JsValue.vstr s => decide (s ≠ "")
  | JsValue.vnum n => decide (n ≠ 0)
  | JsValue.vbool b => b
  | JsValue.vnull => false
  | JsValue.vundefined => false

/-- JavaScript `toString` of a `JsValue`, as applied by `pin.toString()`
(only reached on truthy values). -/
def jsToString : JsValue → String
  | JsValue.vstr s => s
  | JsValue.vnum n => toString n
  | JsValue.vbool b => if b then "true" else "false"
  | JsValue.vnull => "null"
  | JsValue.vundefined => "undefined"

/-- Outcome of the `POST /api/auth/validate` handler: the 400 PIN-is-required
response, the 200 success response, or a 401 with an error code. -/
inductive HandlerResult where
  | badRequest
  | success (token : String) (expiresAt : Nat)
  | unauthorized (code : String)
deriving DecidableEq

/-- The error code the handler attaches (server.js line 253): `RATE_LIMITED`
when the message includes `Too many`, else `INVALID_PIN`. -/
def errorCode : AuthError → String
  | AuthError.rateLimited _ => "RATE_LIMITED"
  | AuthError.invalidPin => "INVALID_PIN"

/-- The `POST /api/auth/validate` handler (server.js lines 234-256): responds
400 when `!pin` (JavaScript falsiness), otherwise calls
`authManager.validatePin(pin, clientIp)` and maps the outcome. -/
def postAuthValidate (pin : JsValue) (PIN ip : String) (now : Nat) (newToken : String)
    (tokenExpiry : Nat) (st : AuthState) : HandlerResult × AuthState :=
  if truthy pin = false then (HandlerResult.badRequest, st)
  else
    match validatePin (jsToString pin) PIN ip now newToken tokenExpiry st with
    | (Except.ok (tok, exp), st1) => (HandlerResult.success tok exp, st1)
    | (Except.error e, st1) => (HandlerResult.unauthorized (errorCode e), st1)

/-- Folding a sequence of failed attempts for one identifier over the map
(repeated `recordFailedAttempt` calls at the given times). -/
def failTimes (m : RateLimitMap) (ip : String) (ts : List Nat) : RateLimitMap :=
  ts.foldl (fun acc t => recordFailedAttempt acc ip t) m

/-- Folding a sequence of failed attempts over a single record. -/
def recFold (r : RateLimitRecord) (ts : List Nat) : RateLimitRecord :=
  ts.foldl failRecord r

lemma lor_eq_zero_iff_aux (a b : Nat) : a ||| b = 0 ↔ a = 0 ∧ b = 0 := by
  constructor
  · intro h
    have key : ∀ i, Nat.testBit a i = false ∧ Nat.testBit b i = false := by
      intro i
      have hb := congrArg (fun n => Nat.testBit n i) h
      simpa [Nat.testBit_or, Bool.or_eq_false_iff] using hb
    exact ⟨Nat.eq_of_testBit_eq fun i => by simp [(key i).1],
      Nat.eq_of_testBit_eq fun i => by simp [(key i).2]⟩
  · rintro ⟨rfl, rfl⟩
    rfl

lemma foldl_lor_eq_zero (l : List Nat) (acc : Nat) :
    l.foldl (fun r x => r ||| x) acc = 0 ↔ acc = 0 ∧ ∀ x ∈ l, x = 0 := by
  induction l generalizing acc with
  | nil => simp
  | cons y l ih =>
    rw [List.foldl_cons, ih, lor_eq_zero_iff_aux]
    constructor
    · rintro ⟨⟨h1, h2⟩, h3⟩
      exact ⟨h1, by intro x hx; rcases List.mem_cons.mp hx with rfl | hx; exacts [h2, h3 x hx]⟩
    · rintro ⟨h1, h2⟩
      exact ⟨⟨h1, h2 y (List.mem_cons_self y l)⟩, fun x hx => h2 x (List.mem_cons_of_mem y hx)⟩

lemma zipWith_xor_all_zero (a : List Nat) :
    ∀ b : List Nat, a.length = b.length →
      ((∀ x ∈ List.zipWith (fun x y => x ^^^ y) a b, x = 0) ↔ a = b) := by
  induction a with
  | nil =>
    intro b hlen
    cases b with
    | nil => simp
    | cons y b => simp at hlen
  | cons x a ih =>
    intro b hlen
    cases b with
    | nil => simp at hlen
    | cons y b =>
      have hlen1 : a.length = b.length := by simpa using hlen
      constructor
      · intro h
        have hx : x = y := Nat.xor_eq_zero.mp (h (x ^^^ y) (by simp))
        have ha : a = b := (ih b hlen1).mp fun z hz => h z (by simp [hz])
        rw [hx, ha]
      · intro heq
        injection heq with h1 h2
        subst h1
        subst h2
        intro z hz
        rw [List.zipWith_cons_cons] at hz
        rcases List.mem_cons.mp hz with rfl | hz1
        · exact Nat.xor_eq_zero.mpr rfl
        · exact (ih a hlen1).mpr rfl z hz1

lemma secureCompare_eq_true_iff (a b : List Nat) : secureCompare a b = true ↔ a = b := by
  unfold secureCompare
  by_cases h : a.length = b.length
  · rw [if_neg (by simpa using h)]
    rw [decide_eq_true_iff, foldl_lor_eq_zero]
    constructor
    · rintro ⟨-, h2⟩
      exact (zipWith_xor_all_zero a b h).mp h2
    · intro heq
      exact ⟨rfl, (zipWith_xor_all_zero a b h).mpr heq⟩
  · rw [if_pos (by simpa using h)]
    constructor
    · intro hf
      exact absurd hf (by simp)
    · intro heq
      exact absurd (congrArg List.length heq) h

lemma charCodes_injective : Function.Injective charCodes := by
  intro s t h
  apply String.ext
  have hchar : Function.Injective Char.toNat := by
    intro a b hab
    apply Char.ext
    apply UInt32.ext
    simpa [Char.toNat, UInt32.toNat] using hab
  exact List.map_injective_iff.mpr hchar h

lemma charCodes_length (s : String) : (charCodes s).length = s.length := by
  unfold charCodes
  rw [List.length_map]
  rfl

lemma secureCompareStr_eq_true_iff (a b : String) : secureCompareStr a b = true ↔ a = b := by
  unfold secureCompareStr
  rw [secureCompare_eq_true_iff]
  exact ⟨fun h => charCodes_injective h, fun h => by rw [h]⟩

/-- C2: the secret comparator on equal-length strings returns true exactly
when the strings are equal (XOR each character pair, OR-accumulate, test the
accumulator for zero), and on strings of unequal length it returns false. -/
theorem secureCompare_correct (a b : String) :
    (a.length = b.length → (secureCompareStr a b = true ↔ a = b))
    ∧ (a.length ≠ b.length → secureCompareStr a b = false) := by
  constructor
  · intro _
    exact secureCompareStr_eq_true_iff a b
  · intro hne
    unfold secureCompareStr secureCompare
    rw [if_pos]
    simpa [charCodes_length] using hne

/-- Witness for C2 at concrete inputs. -/
theorem secureCompare_correct_witness :
    secureCompareStr "09540" "09540" = true ∧ secureCompareStr "1" "09540" = false := by
  constructor
  · exact ((secureCompare_correct "09540" "09540").1 rfl).mpr rfl
  · exact (secureCompare_correct "1" "09540").2 (by decide)

lemma setRecord_self (m : RateLimitMap) (ip : String) (r : RateLimitRecord) :
    setRecord m ip r ip = some r := by
  simp [setRecord]

lemma setRecord_other (m : RateLimitMap) (ip j : String) (r : RateLimitRecord) (h : j ≠ ip) :
    setRecord m ip r j = m j := by
  simp [setRecord, h]

lemma checkRateLimit_locked_eq (m : RateLimitMap) (ip : String) (now : Nat)
    (r : RateLimitRecord) (hm : m ip = some r) (hl : now < r.lockUntil) :
    checkRateLimit m ip now =
      ({ allowed := false, remainingSeconds := some ((r.lockUntil - now + 999) / 1000) }, m) := by
  unfold checkRateLimit
  rw [hm]
  simp only [Option.getD_some]
  rw [if_pos hl]

lemma checkRateLimit_allowed_of_record (m : RateLimitMap) (ip : String) (now : Nat)
    (r : RateLimitRecord) (hm : m ip = some r) (hl : ¬ now < r.lockUntil)
    (ha : r.attempts < 30) :
    (checkRateLimit m ip now).1.allowed = true := by
  unfold checkRateLimit
  rw [hm]
  simp only [Option.getD_some]
  rw [if_neg hl]
  by_cases hw : now - r.lastAttempt > 15 * 60 * 1000 <;> simp [hw, ha]

lemma checkRateLimit_not_allowed_frame (m : RateLimitMap) (ip : String) (now : Nat)
    (h : (checkRateLimit m ip now).1.allowed = false) :
    (checkRateLimit m ip now).2 = m := by
  unfold checkRateLimit at h ⊢
  by_cases hl : now < ((m ip).getD { attempts := 0, lastAttempt := 0, lockUntil := 0 }).lockUntil
  · rw [if_pos hl]
  · rw [if_neg hl] at h ⊢
    by_cases hw : now - ((m ip).getD { attempts := 0, lastAttempt := 0, lockUntil := 0 }).lastAttempt
        > 15 * 60 * 1000
    · simp [hw] at h
    · simp [hw]

lemma failRecord_attempts (r : RateLimitRecord) (t : Nat) :
    (failRecord r t).attempts = r.attempts + 1 := by
  unfold failRecord
  split <;> rfl

lemma failRecord_lockUntil_lt (r : RateLimitRecord) (t : Nat) (h : r.attempts + 1 < 30) :
    (failRecord r t).lockUntil = r.lockUntil := by
  unfold failRecord
  rw [if_neg (by omega)]

lemma failRecord_ge (r : RateLimitRecord) (t : Nat) (h : r.attempts + 1 ≥ 30) :
    failRecord r t =
      { attempts := r.attempts + 1, lastAttempt := t, lockUntil := t + 15 * 60 * 1000 } := by
  unfold failRecord
  rw [if_pos h]

lemma recFold_attempts (ts : List Nat) :
    ∀ r : RateLimitRecord, (recFold r ts).attempts = r.attempts + ts.length := by
  induction ts with
  | nil => intro r; simp [recFold]
  | cons t ts ih =>
    intro r
    have h1 : recFold r (t :: ts) = recFold (failRecord r t) ts := rfl
    rw [h1, ih (failRecord r t), failRecord_attempts]
    simp
    omega

lemma recFold_lockUntil (ts : List Nat) :
    ∀ r : RateLimitRecord, r.attempts + ts.length < 30 →
      (recFold r ts).lockUntil = r.lockUntil := by
  induction ts with
  | nil => intro r _; simp [recFold]
  | cons t ts ih =>
    intro r h
    have h1 : recFold r (t :: ts) = recFold (failRecord r t) ts := rfl
    have h2 : (failRecord r t).attempts + ts.length < 30 := by
      rw [failRecord_attempts]
      simp at h
      omega
    rw [h1, ih (failRecord r t) h2, failRecord_lockUntil_lt]
    simp at h
    omega

lemma recFold_append_single (r : RateLimitRecord) (ts : List Nat) (t : Nat) :
    recFold r (ts ++ [t]) = failRecord (recFold r ts) t := by
  simp [recFold, List.foldl_append]

lemma recordFailedAttempt_self (m : RateLimitMap) (ip : String) (t : Nat) :
    recordFailedAttempt m ip t ip
      = some (failRecord ((m ip).getD { attempts := 0, lastAttempt := 0, lockUntil := 0 }) t) := by
  unfold recordFailedAttempt
  exact setRecord_self _ _ _

lemma failTimes_self (ts : List Nat) :
    ∀ m : RateLimitMap, ∀ ip : String, ts ≠ [] →
      failTimes m ip ts ip
        = some (recFold ((m ip).getD { attempts := 0, lastAttempt := 0, lockUntil := 0 }) ts) := by
  induction ts with
  | nil => intro _ _ h; exact absurd rfl h
  | cons t ts ih =>
    intro m ip _
    by_cases hts : ts = []
    · subst hts
      exact recordFailedAttempt_self m ip t
    · have h1 : failTimes m ip (t :: ts) = failTimes (recordFailedAttempt m ip t) ip ts := rfl
      rw [h1, ih (recordFailedAttempt m ip t) ip hts, recordFailedAttempt_self]
      rfl

/-- C3: starting from the empty rate-limit state, after 29 recorded failures
`checkRateLimit` still allows the identifier; the 30th failure sets
`lockUntil` to its time plus 15 minutes, and any check before that instant is
denied with a positive number of remaining seconds. -/
theorem thirtieth_failure_locks (ip : String) (ts : List Nat) (t30 tc : Nat)
    (h29 : ts.length = 29) (hc : tc < t30 + 15 * 60 * 1000) :
    (checkRateLimit (failTimes emptyRateLimitMap ip ts) ip tc).1.allowed = true
    ∧ failTimes emptyRateLimitMap ip (ts ++ [t30]) ip
        = some { attempts := 30, lastAttempt := t30, lockUntil := t30 + 15 * 60 * 1000 }
    ∧ (checkRateLimit (failTimes emptyRateLimitMap ip (ts ++ [t30])) ip tc).1.allowed = false
    ∧ ∃ s, (checkRateLimit (failTimes emptyRateLimitMap ip (ts ++ [t30])) ip tc).1.remainingSeconds
          = some s ∧ 0 < s := by
  have hne : ts ≠ [] := by
    intro h
    rw [h] at h29
    simp at h29
  have hget : failTimes emptyRateLimitMap ip ts ip
      = some (recFold { attempts := 0, lastAttempt := 0, lockUntil := 0 } ts) := by
    rw [failTimes_self ts emptyRateLimitMap ip hne]
    rfl
  have hatt : (recFold { attempts := 0, lastAttempt := 0, lockUntil := 0 } ts).attempts = 29 := by
    rw [recFold_attempts, h29]
  have hlock : (recFold { attempts := 0, lastAttempt := 0, lockUntil := 0 } ts).lockUntil = 0 := by
    rw [recFold_lockUntil ts _ (by show 0 + ts.length < 30; rw [h29]; omega)]
  have hatt1 : (recFold { attempts := 0, lastAttempt := 0, lockUntil := 0 } ts).attempts + 1
      ≥ 30 := by
    rw [hatt]
  have h30rec : recFold { attempts := 0, lastAttempt := 0, lockUntil := 0 } (ts ++ [t30])
      = { attempts := 30, lastAttempt := t30, lockUntil := t30 + 15 * 60 * 1000 } := by
    rw [recFold_append_single, failRecord_ge _ _ hatt1, hatt]
  have hget30 : failTimes emptyRateLimitMap ip (ts ++ [t30]) ip
      = some { attempts := 30, lastAttempt := t30, lockUntil := t30 + 15 * 60 * 1000 } := by
    rw [failTimes_self (ts ++ [t30]) emptyRateLimitMap ip (by simp)]
    rw [show (emptyRateLimitMap ip).getD { attempts := 0, lastAttempt := 0, lockUntil := 0 }
        = { attempts := 0, lastAttempt := 0, lockUntil := 0 } from rfl, h30rec]
  have hcheck30 := checkRateLimit_locked_eq (failTimes emptyRateLimitMap ip (ts ++ [t30])) ip tc
    { attempts := 30, lastAttempt := t30, lockUntil := t30 + 15 * 60 * 1000 } hget30 hc
  refine ⟨?_, hget30, ?_, ?_⟩
  · exact checkRateLimit_allowed_of_record _ _ _ _ hget (by rw [hlock]; omega) (by rw [hatt]; omega)
  · rw [hcheck30]
  · rw [hcheck30]
    exact ⟨(t30 + 15 * 60 * 1000 - tc + 999) / 1000, rfl, Nat.div_pos (by omega) (by omega)⟩

/-- Witness for C3: 29 failures at time 0 leave the identifier allowed; the
30th locks it for 900 seconds. -/
theorem thirtieth_failure_locks_witness :
    (checkRateLimit (failTimes emptyRateLimitMap "a" (List.replicate 29 0)) "a" 0).1.allowed = true
    ∧ (checkRateLimit (failTimes emptyRateLimitMap "a" (List.replicate 29 0 ++ [0])) "a" 0).1.allowed
        = false := by
  have h := thirtieth_failure_locks "a" (List.replicate 29 0) 0 0 (by decide) (by omega)
  exact ⟨h.1, h.2.2.1⟩

/-- C6 counterexample: with a stored record of 5 attempts whose window has
expired, `checkRateLimit` changes the stored record (its `attempts` is reset
to 0 in place, because the source mutates the object held by the map), so the
stored state is not unchanged as claimed. -/
theorem checkRateLimit_writeback_counterexample :
    ((fun j => if j = "ip" then some { attempts := 5, lastAttempt := 0, lockUntil := 0 }
        else none) : RateLimitMap) "ip"
      = some { attempts := 5, lastAttempt := 0, lockUntil := 0 }
    ∧ 900001 - 0 > 15 * 60 * 1000
    ∧ (checkRateLimit
        (fun j => if j = "ip" then some { attempts := 5, lastAttempt := 0, lockUntil := 0 }
          else none) "ip" 900001).2 "ip"
      ≠ some { attempts := 5, lastAttempt := 0, lockUntil := 0 } := by
  decide

/-- C6 as amended: for an identifier whose window has expired (and which is
not locked), `checkRateLimit` treats `attempts` as 0 and allows the request,
but when a record is stored it writes the zeroed `attempts` back into the
stored record (leaving `lastAttempt` and `lockUntil` intact); the records of
all other identifiers are unchanged. -/
theorem checkRateLimit_window_reset_writeback (m : RateLimitMap) (ip : String) (now : Nat)
    (r : RateLimitRecord) (hm : m ip = some r) (hlock : ¬ now < r.lockUntil)
    (hw : now - r.lastAttempt > 15 * 60 * 1000) :
    (checkRateLimit m ip now).1.allowed = true
    ∧ (checkRateLimit m ip now).2 ip
        = some { attempts := 0, lastAttempt := r.lastAttempt, lockUntil := r.lockUntil }
    ∧ ∀ j, j ≠ ip → (checkRateLimit m ip now).2 j = m j := by
  unfold checkRateLimit
  rw [hm]
  simp only [Option.getD_some]
  rw [if_neg hlock]
  refine ⟨by simp [hw], by simp [hw, setRecord_self], ?_⟩
  intro j hj
  simp [hw, setRecord, hj]

/-- Witness for the amended C6. -/
theorem checkRateLimit_window_reset_writeback_witness :
    (checkRateLimit (fun j => if j = "b" then some { attempts := 7, lastAttempt := 3, lockUntil := 0 }
        else none) "b" 1000000).1.allowed = true
    ∧ (checkRateLimit (fun j => if j = "b" then some { attempts := 7, lastAttempt := 3, lockUntil := 0 }
        else none) "b" 1000000).2 "b"
      = some { attempts := 0, lastAttempt := 3, lockUntil := 0 } := by
  have h := checkRateLimit_window_reset_writeback
    (fun j => if j = "b" then some { attempts := 7, lastAttempt := 3, lockUntil := 0 } else none)
    "b" 1000000 { attempts := 7, lastAttempt := 3, lockUntil := 0 } rfl (by decide) (by decide)
  exact ⟨h.1, h.2.1⟩

/-- C4: while an identifier is locked (`now < lockedUntil`), `validatePin`
fails with the rate-limited error whatever the pin is — the correct PIN
included — and the whole state (rate-limit map and token store) is exactly
unchanged, so no token is issued or persisted. -/
theorem locked_identifier_rejects_any_pin (pin PIN ip : String) (now : Nat) (ntok : String)
    (texp : Nat) (st : AuthState) (r : RateLimitRecord)
    (hm : st.rateLimitMap ip = some r) (hl : now < r.lockUntil) :
    (validatePin pin PIN ip now ntok texp st).1
      = Except.error (AuthError.rateLimited (some ((r.lockUntil - now + 999) / 1000)))
    ∧ (validatePin pin PIN ip now ntok texp st).2 = st := by
  have hcrl := checkRateLimit_locked_eq st.rateLimitMap ip now r hm hl
  unfold validatePin
  rw [hcrl]
  exact ⟨rfl, rfl⟩

/-- Witness for C4: a locked identifier rejects even the configured PIN. -/
theorem locked_identifier_rejects_any_pin_witness :
    (validatePin "09540" "09540" "ip" 5 "tok" 1000
        ⟨fun j => if j = "ip" then some { attempts := 30, lastAttempt := 2, lockUntil := 1000000 }
          else none, emptyTokens⟩).1
      = Except.error (AuthError.rateLimited (some ((1000000 - 5 + 999) / 1000)))
    ∧ (validatePin "09540" "09540" "ip" 5 "tok" 1000
        ⟨fun j => if j = "ip" then some { attempts := 30, lastAttempt := 2, lockUntil := 1000000 }
          else none, emptyTokens⟩).2
      = ⟨fun j => if j = "ip" then some { attempts := 30, lastAttempt := 2, lockUntil := 1000000 }
          else none, emptyTokens⟩ :=
  locked_identifier_rejects_any_pin "09540" "09540" "ip" 5 "tok" 1000 _
    { attempts := 30, lastAttempt := 2, lockUntil := 1000000 } rfl (by decide)

/-- C5: whenever `validatePin` fails with the rate-limited error, no failed
attempt is recorded — the rate-limit record of the identifier and the token
store are exactly as before the call. -/
theorem rateLimited_error_records_nothing (pin PIN ip : String) (now : Nat) (ntok : String)
    (texp : Nat) (st : AuthState) (s : Option Nat)
    (h : (validatePin pin PIN ip now ntok texp st).1
        = Except.error (AuthError.rateLimited s)) :
    ((validatePin pin PIN ip now ntok texp st).2).rateLimitMap ip = st.rateLimitMap ip
    ∧ ((validatePin pin PIN ip now ntok texp st).2).tokens = st.tokens := by
  simp only [validatePin] at h ⊢
  by_cases hall : (checkRateLimit st.rateLimitMap ip now).1.allowed = false
  · rw [if_pos hall] at h ⊢
    have hframe := checkRateLimit_not_allowed_frame st.rateLimitMap ip now hall
    constructor
    · show (checkRateLimit st.rateLimitMap ip now).2 ip = st.rateLimitMap ip
      rw [hframe]
    · rfl
  · rw [if_neg hall] at h ⊢
    by_cases hsec : secureCompareStr pin PIN = false
    · rw [if_pos hsec] at h
      simp at h
    · rw [if_neg hsec] at h
      simp at h

/-- Witness for C5 at a locked identifier. -/
theorem rateLimited_error_records_nothing_witness :
    ((validatePin "x" "y" "c" 5 "tok" 1000
        ⟨fun j => if j = "c" then some { attempts := 30, lastAttempt := 2, lockUntil := 1000000 }
          else none, emptyTokens⟩).2).rateLimitMap "c"
      = (⟨fun j => if j = "c" then some { attempts := 30, lastAttempt := 2, lockUntil := 1000000 }
          else none, emptyTokens⟩ : AuthState).rateLimitMap "c"
    ∧ ((validatePin "x" "y" "c" 5 "tok" 1000
        ⟨fun j => if j = "c" then some { attempts := 30, lastAttempt := 2, lockUntil := 1000000 }
          else none, emptyTokens⟩).2).tokens
      = (⟨fun j => if j = "c" then some { attempts := 30, lastAttempt := 2, lockUntil := 1000000 }
          else none, emptyTokens⟩ : AuthState).tokens :=
  rateLimited_error_records_nothing "x" "y" "c" 5 "tok" 1000 _
    (some ((1000000 - 5 + 999) / 1000)) rfl

/-- C1 counterexample: at the boundary `now = expiresAt` a stored token is
still accepted — the source tests `Date.now() > expiresAt` — although the
claim's validity condition `now < expiresAt` is false there. -/
theorem validateToken_boundary_counterexample :
    ((fun j => if j = "t" then some { expiresAt := 100, createdAt := 0 } else none : TokenStore) "t"
      = some { expiresAt := 100, createdAt := 0 })
    ∧ ¬ (100 < 100)
    ∧ (validateToken (some "t")
        (fun j => if j = "t" then some { expiresAt := 100, createdAt := 0 } else none) 100).1
      = true := by
  decide

/-- C1 as amended: for a non-empty token, `validateToken` returns true iff a
record exists and `now ≤ expiresAt` (not `now < expiresAt`); when a record
exists and `now > expiresAt`, it returns false and deletes the record from
the store as a side effect. -/
theorem validateToken_validity (t : String) (store : TokenStore) (now : Nat) (h : t ≠ "") :
    ((validateToken (some t) store now).1 = true
      ↔ ∃ r, store t = some r ∧ now ≤ r.expiresAt)
    ∧ (∀ r, store t = some r → r.expiresAt < now →
        (validateToken (some t) store now).1 = false
        ∧ (validateToken (some t) store now).2 t = none) := by
  simp only [validateToken]
  rw [if_neg h]
  cases hs : store t with
  | none =>
    constructor
    · simp
    · intro r hr
      exact absurd hr (by simp)
  | some r =>
    dsimp only
    by_cases he : now > r.expiresAt
    · rw [if_pos he]
      constructor
      · constructor
        · intro hff
          simp at hff
        · rintro ⟨r1, hr1, hle⟩
          exfalso
          injection hr1 with hr1
          subst hr1
          omega
      · intro r1 hr1 _
        exact ⟨rfl, by simp [deleteToken]⟩
    · rw [if_neg he]
      constructor
      · simp only [true_iff]
        exact ⟨r, rfl, by omega⟩
      · intro r1 hr1 hlt
        injection hr1 with hr1
        subst hr1
        omega

/-- Witness for the amended C1: an expired token is rejected and removed. -/
theorem validateToken_validity_witness :
    (validateToken (some "t")
        (fun j => if j = "t" then some { expiresAt := 50, createdAt := 0 } else none) 100).1
      = false
    ∧ (validateToken (some "t")
        (fun j => if j = "t" then some { expiresAt := 50, createdAt := 0 } else none) 100).2 "t"
      = none :=
  (validateToken_validity "t"
    (fun j => if j = "t" then some { expiresAt := 50, createdAt := 0 } else none) 100
    (by decide)).2 { expiresAt := 50, createdAt := 0 } rfl (by decide)

/-- C7: `validateToken` is total (the model never throws): it returns false
for an absent or empty token whatever the storage holds, false for an absent
record, and false when the storage read fails (the KV read error is caught
and collapsed to false, fail-closed). -/
theorem validateToken_fail_closed :
    (∀ (read : Except String (Option TokenRecord)) (now : Nat),
        validateTokenKV none read now = false ∧ validateTokenKV (some "") read now = false)
    ∧ (∀ (t : String) (now : Nat) (e : String),
        validateTokenKV (some t) (Except.error e) now = false)
    ∧ (∀ (t : String) (now : Nat),
        validateTokenKV (some t) (Except.ok none) now = false) := by
  refine ⟨fun read now => ⟨rfl, rfl⟩, fun t now e => ?_, fun t now => ?_⟩
  · by_cases h : t = "" <;> simp [validateTokenKV, h]
  · by_cases h : t = "" <;> simp [validateTokenKV, h]

/-- C8 counterexample: at a remaining lifetime of 1500 ms the source passes a
TTL of `floor(1.5) = 1` second to the backend, not the claimed
`max(0, round(1.5)) = 2`. -/
theorem storeTokenKV_ttl_counterexample :
    (storeTokenKV "t" 1500 0).2 = 1
    ∧ ttlSpecRounded 1500 0 = 2
    ∧ (storeTokenKV "t" 1500 0).2 ≠ ttlSpecRounded 1500 0 := by
  decide

/-- C8 as amended: the TTL passed to the KV backend at write time is
`floor((expiresAt - now)/1000)` — characterised by the floor bounds — with no
clamping at zero, so an already-expired token yields a negative TTL; the key
is the namespaced `auth:` ++ token. -/
theorem storeTokenKV_ttl_floor (token : String) (expiresAt now : Int) :
    1000 * (storeTokenKV token expiresAt now).2 ≤ expiresAt - now
    ∧ expiresAt - now < 1000 * (storeTokenKV token expiresAt now).2 + 1000
    ∧ (expiresAt - now < 0 → (storeTokenKV token expiresAt now).2 < 0)
    ∧ (storeTokenKV token expiresAt now).1 = "auth:" ++ token := by
  have h1 := Int.fdiv_add_fmod (expiresAt - now) 1000
  have h2 := Int.fmod_nonneg' (expiresAt - now) (show (0 : Int) < 1000 by norm_num)
  have h3 := Int.fmod_lt_of_pos (expiresAt - now) (show (0 : Int) < 1000 by norm_num)
  have hdef : (storeTokenKV token expiresAt now).2 = (expiresAt - now).fdiv 1000 := rfl
  rw [hdef]
  exact ⟨by omega, by omega, fun hneg => by omega, rfl⟩

/-- Witness for the amended C8, at a token already expired for 1.5 seconds. -/
theorem storeTokenKV_ttl_floor_witness :
    1000 * (storeTokenKV "t" 0 1500).2 ≤ 0 - 1500
    ∧ (storeTokenKV "t" 0 1500).2 < 0 :=
  ⟨(storeTokenKV_ttl_floor "t" 0 1500).1,
    (storeTokenKV_ttl_floor "t" 0 1500).2.2.1 (by decide)⟩

/-- C9 counterexample: a whitespace-only pin `" "` is truthy, so the handler
does not answer 400; it reaches the PIN comparison, fails it, and records a
failed attempt for the client. -/
theorem pin_required_counterexample :
    truthy (JsValue.vstr " ") = true
    ∧ (postAuthValidate (JsValue.vstr " ") "09540" "ip" 0 "tok" 1000
        ⟨emptyRateLimitMap, emptyTokens⟩).1 = HandlerResult.unauthorized "INVALID_PIN"
    ∧ ((postAuthValidate (JsValue.vstr " ") "09540" "ip" 0 "tok" 1000
        ⟨emptyRateLimitMap, emptyTokens⟩).2).rateLimitMap "ip"
      = some { attempts := 1, lastAttempt := 0, lockUntil := 0 } := by
  decide

/-- C9 as amended: the handler answers 400 `PIN is required` (touching no
state) exactly when the body's `pin` is JavaScript-falsy (absent, null, empty
string, 0, false); every truthy value — whitespace-only strings and truthy
non-strings included — proceeds to PIN validation instead. -/
theorem pin_required_iff_falsy (pin : JsValue) (PIN ip : String) (now : Nat) (ntok : String)
    (texp : Nat) (st : AuthState) :
    (truthy pin = false →
      postAuthValidate pin PIN ip now ntok texp st = (HandlerResult.badRequest, st))
    ∧ (truthy pin = true →
      (postAuthValidate pin PIN ip now ntok texp st).1 ≠ HandlerResult.badRequest) := by
  constructor
  · intro h
    unfold postAuthValidate
    rw [if_pos h]
  · intro h
    unfold postAuthValidate
    rw [if_neg (by rw [h]; simp)]
    cases hv : validatePin (jsToString pin) PIN ip now ntok texp st with
    | mk res st1 =>
      cases res with
      | ok v =>
        obtain ⟨tok, exp⟩ := v
        simp
      | error e =>
        simp

/-- Witness for the amended C9: a null pin yields the 400 response with the
state untouched, and a truthy pin does not. -/
theorem pin_required_iff_falsy_witness :
    postAuthValidate JsValue.vnull "09540" "ip" 0 "tok" 1000 ⟨emptyRateLimitMap, emptyTokens⟩
      = (HandlerResult.badRequest, ⟨emptyRateLimitMap, emptyTokens⟩)
    ∧ (postAuthValidate (JsValue.vstr " ") "09540" "ip" 0 "tok" 1000
        ⟨emptyRateLimitMap, emptyTokens⟩).1 ≠ HandlerResult.badRequest :=
  ⟨(pin_required_iff_falsy JsValue.vnull "09540" "ip" 0 "tok" 1000
      ⟨emptyRateLimitMap, emptyTokens⟩).1 rfl,
    (pin_required_iff_falsy (JsValue.vstr " ") "09540" "ip" 0 "tok" 1000
      ⟨emptyRateLimitMap, emptyTokens⟩).2 rfl⟩

lemma checkRateLimit_no_record (m : RateLimitMap) (ip : String) (now : Nat)
    (h : m ip = none) :
    (checkRateLimit m ip now).1.allowed = true ∧ (checkRateLimit m ip now).2 = m := by
  unfold checkRateLimit
  rw [h]
  simp only [Option.getD_none, Option.isSome_none]
  rw [if_neg (Nat.not_lt_zero now)]
  by_cases hw : now - ({ attempts := 0, lastAttempt := 0, lockUntil := 0 }
      : RateLimitRecord).lastAttempt > 15 * 60 * 1000 <;> simp [hw]

/-- C10: with `AUTH_PIN` unset or empty, the configured PIN falls back to the
built-in default `09540`, and for a fresh client identifier (no rate-limit
record) `validatePin` with that default succeeds, returning the new token
with expiry `now + tokenExpiry` and persisting its record. -/
theorem default_pin_fallback (ip : String) (now : Nat) (ntok : String) (texp : Nat)
    (st : AuthState) (h : st.rateLimitMap ip = none) :
    pinConfig none = "09540"
    ∧ pinConfig (some "") = "09540"
    ∧ (validatePin "09540" (pinConfig none) ip now ntok texp st).1
        = Except.ok (ntok, now + texp)
    ∧ ((validatePin "09540" (pinConfig none) ip now ntok texp st).2).tokens ntok
        = some { expiresAt := now + texp, createdAt := now } := by
  have hallow := (checkRateLimit_no_record st.rateLimitMap ip now h).1
  have hsec : secureCompareStr "09540" (pinConfig none) = true := by decide
  refine ⟨rfl, rfl, ?_, ?_⟩
  · simp only [validatePin]
    rw [if_neg (by rw [hallow]; simp), if_neg (by rw [hsec]; simp)]
  · simp only [validatePin]
    rw [if_neg (by rw [hallow]; simp), if_neg (by rw [hsec]; simp)]
    simp [storeToken, setToken]

/-- Witness for C10 on a fresh state. -/
theorem default_pin_fallback_witness :
    (validatePin "09540" (pinConfig none) "d" 0 "tok" 1000
        ⟨emptyRateLimitMap, emptyTokens⟩).1 = Except.ok ("tok", 0 + 1000)
    ∧ ((validatePin "09540" (pinConfig none) "d" 0 "tok" 1000
        ⟨emptyRateLimitMap, emptyTokens⟩).2).tokens "tok"
      = some { expiresAt := 0 + 1000, createdAt := 0 } :=
  ⟨(default_pin_fallback "d" 0 "tok" 1000 ⟨emptyRateLimitMap, emptyTokens⟩ rfl).2.2.1,
    (default_pin_fallback "d" 0 "tok" 1000 ⟨emptyRateLimitMap, emptyTokens⟩ rfl).2.2.2⟩

end SwearJar
